import Mathlib

/-!
Verification development for the archvyrt provisioning pipeline.

The definitions below are shallow embeddings of the Python sources:
`archvyrt/__init__.py` (main), `archvyrt/domain.py` (Domain),
`archvyrt/provisioner/base/__init__.py` (Base), `archvyrt/provisioner/base/linux.py`
and `archvyrt/provisioner/archlinux.py` (LinuxProvisioner / ArchlinuxProvisioner),
`archvyrt/provisioner/ubuntu.py` (UbuntuProvisioner), and
`libarchvyrt/libvirt/disk.py` (LibvirtDisk).  Commands are modelled as argument
vectors (lists of strings); the outside world (captured command output, exit
codes) is modelled by explicit oracle functions, and exceptions by Option or
Except results.
-/

namespace Archvyrt

/-! ### Python string ordering

Python compares strings lexicographically by Unicode code point.  `strLtChars`
is that strict order on the underlying character lists; `pyStrLt` / `pyStrLe`
are the induced strict and non-strict orders on `String`.  These model the
comparisons performed by the builtin `sorted()`.
-/

/-- Strict lexicographic order on character lists, by code point. -/
def strLtChars : List Char → List Char → Bool
  | [], [] => false
  | [], _ :: _ => true
  | _ :: _, [] => false
  | a :: as, b :: bs =>
      if a.toNat < b.toNat then true
      else if b.toNat < a.toNat then false
      else strLtChars as bs

/-- Python strict string comparison (code-point lexicographic). -/
def pyStrLt (a b : String) : Bool := strLtChars a.data b.data

/-- Python non-strict string comparison, the negation of the reversed strict one. -/
def pyStrLe (a b : String) : Bool := !(pyStrLt b a)

/-- The relation used to model Python `sorted()` on strings. -/
def pyStrOrder (a b : String) : Prop := pyStrLe a b = true

instance : DecidableRel pyStrOrder := fun a b => by
  unfold pyStrOrder; infer_instance

/-- Python `sorted()` on a list of strings: a stable sort with respect to the
code-point lexicographic order, modelled by insertion sort. -/
def pySorted (l : List String) : List String := List.insertionSort pyStrOrder l

/-! ### Domain._init_disks (archvyrt/domain.py)

`_init_disks` iterates `sorted(self._domain_info['disks'].items())`: the disk
aliases (the dict keys, which are unique) in Python string sort order.  The
resulting `self._disks` list is the order every later per-disk loop uses.
-/

/-- Processing order of the disk aliases produced by `Domain._init_disks`:
the aliases sorted by Python string comparison. -/
def initDisksOrder (aliases : List String) : List String := pySorted aliases

/-- Transcription of `LibvirtDisk.number`: the regex `^.*?([0-9]+)$` captures the
maximal trailing run of decimal digits of the alias. -/
def diskNumber (aliasName : String) : String :=
  String.mk ((aliasName.data.reverse.takeWhile (fun c => c.isDigit)).reverse)

/-- Numeric value of a digit list, most significant digit first. -/
def digitsVal (l : List Char) : Nat :=
  l.foldl (fun n c => 10 * n + (c.toNat - 48)) 0

/-- Numeric disk index of an alias, as the claim reads it (`disk10` has index 10). -/
def diskIndexVal (aliasName : String) : Nat := digitsVal (diskNumber aliasName).data

/-! ### Python tuple ordering, for sorted() over dict items -/

/-- Python strict comparison of string pairs (tuple comparison: first component,
then the second on ties). -/
def pyPairLt (a b : String × String) : Bool :=
  pyStrLt a.1 b.1 || (decide (a.1 = b.1) && pyStrLt a.2 b.2)

/-- Python non-strict comparison of string pairs. -/
def pyPairLe (a b : String × String) : Bool := !(pyPairLt b a)

/-- The relation used to model Python `sorted()` on string pairs. -/
def pyPairOrder (a b : String × String) : Prop := pyPairLe a b = true

instance : DecidableRel pyPairOrder := fun a b => by
  unfold pyPairOrder; infer_instance

/-- Python `sorted()` over the items of a mountpoint-to-uuid dict. -/
def pySortedPairs (l : List (String × String)) : List (String × String) :=
  List.insertionSort pyPairOrder l

/-! ### Base._runcmd (archvyrt/provisioner/base/__init__.py) -/

/-- Outcome of one external process: its exit code and the text it produced on
stdout and stderr combined (the code launches `subprocess.check_output` with
`stderr=subprocess.STDOUT`). -/
structure CmdResult where
  exitCode : Int
  combined : String
  deriving DecidableEq

/-- Exceptions `_runcmd` can raise: `CalledProcessError` out of
`subprocess.check_output`, and the `RuntimeError` raised on a tolerated-capture
failure path. -/
inductive RunFailure where
  | calledProcessError (exitCode : Int)
  | commandFailed (cmds : List String)
  deriving DecidableEq

/-- Normal return value of `_runcmd`: the decoded captured text when `output`
is set, the raw exit code otherwise. -/
inductive RunValue where
  | captured (text : String)
  | exitCode (code : Int)
  deriving DecidableEq

/-- Transcription of `Base._runcmd`: with `output` set, `subprocess.check_output`
captures combined stdout+stderr and raises on any non-zero exit (there is no
failhard test on this path); otherwise output is sent to /dev/null,
`subprocess.call` returns the exit code, and a non-zero exit raises only when
`failhard` is set. -/
def runcmd (cmds : List String) (output failhard : Bool) (res : CmdResult) :
    Except RunFailure RunValue :=
  if output then
    if res.exitCode = 0 then .ok (.captured res.combined)
    else .error (.calledProcessError res.exitCode)
  else
    if ¬res.exitCode = 0 then
      if failhard then .error (.commandFailed cmds)
      else .ok (.exitCode res.exitCode)
    else .ok (.exitCode res.exitCode)

/-! ### Paths (LinuxProvisioner / ArchlinuxProvisioner) -/

/-- Python `str.lstrip('/')`: drop every leading '/' character. -/
def lstripSlashes (s : String) : String :=
  String.mk (s.data.dropWhile (fun c => c = '/'))

/-- Host-side mount path computed inside `_prepare_disks` for an ext4 disk:
the literal `'/provision/%s' % disk.mountpoint.lstrip('/')`.  The provisioner's
`self._target` is in scope in that method but is not consulted, which is why
the parameter is unused. -/
def prepareMountPath (_target mountpoint : String) : String :=
  "/provision/" ++ lstripSlashes mountpoint

/-- Path written by `writetargetfile`: `"%s%s" % (self.target, filename)`. -/
def writetargetfilePath (target filename : String) : String := target ++ filename

/-! ### cleanup (LinuxProvisioner.cleanup / ArchlinuxProvisioner.cleanup)

`cleanup` iterates `reversed(self._cleanup)` and invokes `self.run(cmd)` on each
entry with `run`'s defaults, `output=False` and `failhard=True`; under those
defaults `_runcmd` raises `RuntimeError` on a non-zero exit, which aborts the
loop.  The exit-code oracle supplies each command's exit status.
-/

/-- One command's argument vector. -/
abbrev Cmd := List String

/-- Loop body of `cleanup`, already given the reversed ledger: run commands in
order; a non-zero exit raises, ending the iteration.  Returns the commands
actually invoked and the command whose failure was raised, if any. -/
def cleanupGo (exitOf : Cmd → Int) : List Cmd → List Cmd × Option Cmd
  | [] => ([], none)
  | c :: rest =>
      if exitOf c = 0 then
        let r := cleanupGo exitOf rest
        (c :: r.1, r.2)
      else ([c], some c)

/-- Transcription of `cleanup`: iterate the recorded cleanup commands in reverse
insertion order. -/
def cleanup (exitOf : Cmd → Int) (ledger : List Cmd) : List Cmd × Option Cmd :=
  cleanupGo exitOf ledger.reverse

/-! ### The provisioning pipeline and main (archvyrt/__init__.py)

`LinuxProvisioner.__init__` / `ArchlinuxProvisioner.__init__` run the six stage
methods in order inside the constructor.  `main` constructs the provisioner and,
on the following lines, calls `provisioner.cleanup()`, `domain.autostart(True)`
and `domain.start()`.  Nothing is wrapped in try/finally, so an exception
raised by any stage propagates out of `main` at once.
-/

/-- Pipeline stages, in constructor order. -/
inductive Stage where
  | prepareDisks
  | install
  | networkConfig
  | localeConfig
  | bootConfig
  | accessConfig
  deriving DecidableEq

/-- The stage sequence of the provisioner constructor. -/
def pipelineStages : List Stage :=
  [.prepareDisks, .install, .networkConfig, .localeConfig, .bootConfig, .accessConfig]

/-- Runs a stage list in order; the first stage the oracle marks as failing
raises, aborting the rest.  Returns the stages entered and the raised stage. -/
def runStages (fails : Stage → Bool) : List Stage → List Stage × Option Stage
  | [] => ([], none)
  | s :: rest =>
      if fails s then ([s], some s)
      else
        let r := runStages fails rest
        (s :: r.1, r.2)

/-- The provisioner constructor body: all six stages in order. -/
def provisionerInit (fails : Stage → Bool) : List Stage × Option Stage :=
  runStages fails pipelineStages

/-- Observable trace of one archlinux/ubuntu provisioning run of `main`. -/
structure MainTrace where
  stagesRun : List Stage
  cleanupCalls : Nat
  autostartSet : Bool
  domainStarted : Bool
  raised : Option Stage
  deriving DecidableEq

/-- Transcription of the archlinux/ubuntu branch of `main`: construct the
provisioner (running every stage); only when the constructor returns normally
do the later statements run, `provisioner.cleanup()` first among them.  An
exception from a stage propagates immediately: cleanup, autostart and start are
all skipped. -/
def mainProvision (fails : Stage → Bool) : MainTrace :=
  match provisionerInit fails with
  | (run, some s) =>
      { stagesRun := run, cleanupCalls := 0, autostartSet := false,
        domainStarted := false, raised := some s }
  | (run, none) =>
      { stagesRun := run, cleanupCalls := 1, autostartSet := true,
        domainStarted := true, raised := none }

/-! ### Command environments (archlinux.py run/runchroot, base/linux.py run,
ubuntu.py runchroot) -/

/-- A process environment, as an association list of variable bindings. -/
abbrev Env := List (String × String)

/-- Python dict assignment `env[k] = v`: overwrite an existing binding in place,
else append a new one. -/
def envSet (env : Env) (k v : String) : Env :=
  if env.any (fun p => decide (p.1 = k)) then
    env.map (fun p => if p.1 = k then (k, v) else p)
  else env ++ [(k, v)]

/-- Lookup of a variable in an environment. -/
def envGet (env : Env) (k : String) : Option String :=
  (env.find? (fun p => decide (p.1 = k))).map Prod.snd

/-- Python truthiness of the popped 'env' keyword argument: None and the empty
dict are falsy. -/
def pyEnvTruthy : Option Env → Bool
  | none => false
  | some e => !e.isEmpty

/-- Environment computed into `run_env` by `ArchlinuxProvisioner.run` and
`LinuxProvisioner.run`: the caller's env when one was passed, else a copy of
the ambient process environment with `http_proxy`/`ftp_proxy` added when a
proxy is configured. -/
def runComputedEnv (ambient : Env) (proxy : Option String) (kwargsEnv : Option Env) : Env :=
  if pyEnvTruthy kwargsEnv then kwargsEnv.getD []
  else
    match proxy with
    | some p =>
        if p = "" then ambient
        else
          envSet (envSet ambient "http_proxy" ("http://" ++ p))
            "ftp_proxy" ("http://" ++ p)
    | none => ambient

/-- The env keyword that `ArchlinuxProvisioner.run` actually passes to
`_runcmd`: the code pops 'env' from kwargs and computes `run_env`, but then
invokes `self._runcmd(cmds, output, failhard, **kwargs)` without forwarding it,
so no env argument reaches `subprocess`. -/
def archRunPassedEnv (_ambient : Env) (_proxy : Option String) (_kwargsEnv : Option Env) :
    Option Env :=
  none

/-- The environment the child process of `ArchlinuxProvisioner.run` sees:
`subprocess` with `env=None` inherits the ambient process environment. -/
def archRunEffectiveEnv (ambient : Env) (proxy : Option String) (kwargsEnv : Option Env) : Env :=
  match archRunPassedEnv ambient proxy kwargsEnv with
  | none => ambient
  | some e => e

/-- The env keyword passed to `_runcmd` by `LinuxProvisioner.run`
(base/linux.py), the variant the Ubuntu provisioner inherits: here `run_env` is
forwarded (`env=run_env`). -/
def linuxRunPassedEnv (ambient : Env) (proxy : Option String) (kwargsEnv : Option Env) :
    Option Env :=
  some (runComputedEnv ambient proxy kwargsEnv)

/-- The fixed PATH `UbuntuProvisioner.runchroot` writes into the environment. -/
def chrootPathValue : String :=
  "/usr/local/sbin:/usr/local/bin:/usr/sbin:/usr/bin:/sbin:/bin"

/-- Transcription of `UbuntuProvisioner.runchroot`: take the caller's env (or an
ambient copy), override PATH with the fixed list, and pass the result down to
`run` as the subprocess environment. -/
def ubuntuRunchrootEnv (ambient : Env) (kwargsEnv : Option Env) : Env :=
  envSet (if pyEnvTruthy kwargsEnv then kwargsEnv.getD [] else ambient)
    "PATH" chrootPathValue

/-- Environment the claim asserts for a non-chroot command run while a proxy is
configured, following the spec text: a copy of the ambient process environment
extended with `http_proxy` and `ftp_proxy`. -/
def claimedProxyEnv (ambient : Env) (p : String) : Env :=
  envSet (envSet ambient "http_proxy" ("http://" ++ p)) "ftp_proxy" ("http://" ++ p)

/-! ### Disk preparation (_prepare_disks, archlinux.py) -/

/-- The per-disk inputs `_prepare_disks` consumes, all obtained from the
LibvirtDisk object. -/
structure DiskSpec where
  number : String
  fstype : String
  mountpoint : String
  path : String
  deriving DecidableEq

/-- The exception `_prepare_disks` raises for a filesystem type other than
ext4/swap. -/
inductive PrepError where
  | unsupportedFstype (fstype : String)
  deriving DecidableEq

/-- Recognizes an `sgdisk` partition-creation invocation (`sgdisk -n ...`). -/
def isPartitionCreate : Cmd → Bool
  | "/usr/bin/sgdisk" :: "-n" :: _ => true
  | _ => false

/-- Transcription of the per-disk body of `ArchlinuxProvisioner._prepare_disks`:
the sequence of commands issued for one disk (assuming each succeeds) and the
exception raised, if any.  `out` is the oracle for the text captured by
`output=True` commands.  `os.makedirs` is a library call, not a command, so it
does not appear in the trace. -/
def prepareDiskTrace (out : Cmd → String) (disk : DiskSpec) : List Cmd × Option PrepError :=
  let dev := "/dev/nbd" ++ disk.number
  let attach : Cmd := ["/usr/bin/qemu-nbd", "-n", "-c", dev, disk.path]
  let zap : Cmd := ["/usr/bin/sgdisk", "-o", dev]
  let partStep : List Cmd × Nat :=
    if disk.number = "0" then
      let p1 : Cmd := ["/usr/bin/sgdisk", "-n", "1:2048:4095", "-t", "1:ef02", dev]
      let query : Cmd := ["/usr/bin/sgdisk", "-E", dev]
      let endsector := (out query).trim
      let p2 : Cmd := ["/usr/bin/sgdisk", "-n", "2:4096:" ++ endsector, dev]
      ([p1, query, p2], 2)
    else
      ([["/usr/bin/sgdisk", "-n", "1", dev]], 1)
  let curPart := partStep.2
  let partDev := dev ++ "p" ++ toString curPart
  if disk.fstype = "ext4" then
    let mkfs : Cmd := ["/usr/bin/mkfs.ext4", partDev]
    let mnt := "/provision/" ++ lstripSlashes disk.mountpoint
    let labelCmds : List Cmd :=
      if disk.mountpoint = "/" then [["/usr/bin/tune2fs", "-L", "ROOTFS", partDev]]
      else []
    let mountCmd : Cmd := ["/usr/bin/mount", partDev, mnt]
    let blkid : Cmd := ["/usr/bin/blkid", "-s", "UUID", "-o", "value", partDev]
    ([attach, zap] ++ partStep.1 ++ [mkfs] ++ labelCmds ++ [mountCmd, blkid], none)
  else if disk.fstype = "swap" then
    let settype : Cmd := ["/usr/bin/sgdisk", "-t", toString curPart ++ ":8200", dev]
    let mkswapCmd : Cmd := ["/usr/bin/mkswap", "-f", partDev]
    let swaponCmd : Cmd := ["/usr/bin/swapon", partDev]
    let blkid : Cmd := ["/usr/bin/blkid", "-s", "UUID", "-o", "value", partDev]
    ([attach, zap] ++ partStep.1 ++ [settype, mkswapCmd, swaponCmd, blkid], none)
  else
    ([attach, zap] ++ partStep.1, some (.unsupportedFstype disk.fstype))

/-! ### fstab generation (_boot_config in archlinux.py / ubuntu.py) -/

/-- The accumulated `self._uuid` dict: its top-level keys in insertion order
(each key appears at most once; only "ext4" and "swap" are ever inserted), the
ext4 mountpoint-to-uuid bindings and the swap uuid list. -/
structure UuidMap where
  keys : List String
  ext4 : List (String × String)
  swap : List String

/-- One ext4 fstab line:
`"UUID=%s %s ext4 rw,relatime,data=ordered 0 %d" % (uuid, mountpoint, fsckcount)`. -/
def ext4Line (uuid mountpoint : String) (fsckcount : Nat) : String :=
  "UUID=" ++ uuid ++ " " ++ mountpoint ++ " ext4 rw,relatime,data=ordered 0 " ++
    toString fsckcount

/-- One swap fstab line: `"UUID=%s none swap defaults 0 0" % uuid`. -/
def swapLine (uuid : String) : String := "UUID=" ++ uuid ++ " none swap defaults 0 0"

/-- The inner ext4 loop: visit the sorted items, incrementing `fsckcount` before
each line. -/
def ext4LinesFrom : List (String × String) → Nat → List String
  | [], _ => []
  | (mp, uuid) :: rest, fsckcount =>
      ext4Line uuid mp (fsckcount + 1) :: ext4LinesFrom rest (fsckcount + 1)

/-- Loop body of the fstab generation: per top-level key, append that key's
lines to the matching accumulator. -/
def fstabStep (swapAll ext4All : List String) (acc : List String × List String)
    (key : String) : List String × List String :=
  if key = "swap" then (acc.1 ++ swapAll, acc.2)
  else if key = "ext4" then (acc.1, acc.2 ++ ext4All)
  else acc

/-- Transcription of the fstab-generation loop of `_boot_config`: iterate the
top-level dict keys, collect swap lines and ext4 lines (ext4 items visited in
Python sorted order with the incrementing fsck counter), then write
`ext4_lines + swap_lines`. -/
def fstabLines (m : UuidMap) : List String :=
  let acc := m.keys.foldl
    (fstabStep (m.swap.map swapLine) (ext4LinesFrom (pySortedPairs m.ext4) 0)) ([], [])
  acc.2 ++ acc.1

/-! ## Theorems -/

/-! ### Order lemmas for the Python comparisons -/

theorem strLtChars_trans {a b c : List Char} (hab : strLtChars a b = true)
    (hbc : strLtChars b c = true) : strLtChars a c = true := by
  induction a generalizing b c with
  | nil =>
    cases c with
    | nil =>
      cases b with
      | nil => simp [strLtChars] at hab
      | cons y ys => simp [strLtChars] at hbc
    | cons z zs => simp [strLtChars]
  | cons x xs ih =>
    cases b with
    | nil => simp [strLtChars] at hab
    | cons y ys =>
      cases c with
      | nil => simp [strLtChars] at hbc
      | cons z zs =>
        simp only [strLtChars] at hab hbc ⊢
        by_cases h1 : x.toNat < y.toNat
        · by_cases h2 : y.toNat < z.toNat
          · simp [show x.toNat < z.toNat from by omega]
          · by_cases h3 : z.toNat < y.toNat
            · simp [h2, h3] at hbc
            · simp [show x.toNat < z.toNat from by omega]
        · by_cases h2 : y.toNat < x.toNat
          · simp [h1, h2] at hab
          · simp [h1, h2] at hab
            by_cases h3 : y.toNat < z.toNat
            · simp [show x.toNat < z.toNat from by omega]
            · by_cases h4 : z.toNat < y.toNat
              · simp [h3, h4] at hbc
              · simp [h3, h4] at hbc
                simp [show ¬x.toNat < z.toNat from by omega,
                      show ¬z.toNat < x.toNat from by omega]
                exact ih hab hbc

theorem strLtChars_asymm {a b : List Char} (hab : strLtChars a b = true) :
    strLtChars b a = false := by
  induction a generalizing b with
  | nil =>
    cases b with
    | nil => simp [strLtChars] at hab
    | cons y ys => simp [strLtChars]
  | cons x xs ih =>
    cases b with
    | nil => simp [strLtChars] at hab
    | cons y ys =>
      simp only [strLtChars] at hab ⊢
      by_cases h1 : x.toNat < y.toNat
      · simp [h1, Nat.lt_asymm h1]
      · by_cases h2 : y.toNat < x.toNat
        · simp [h1, h2] at hab
        · simp [h1, h2] at hab ⊢
          exact ih hab

theorem strLtChars_connex {a b : List Char} (hab : strLtChars a b = false)
    (hba : strLtChars b a = false) : a = b := by
  induction a generalizing b with
  | nil =>
    cases b with
    | nil => rfl
    | cons y ys => simp [strLtChars] at hab
  | cons x xs ih =>
    cases b with
    | nil => simp [strLtChars] at hba
    | cons y ys =>
      simp only [strLtChars] at hab hba
      by_cases h1 : x.toNat < y.toNat
      · simp [h1] at hab
      · by_cases h2 : y.toNat < x.toNat
        · simp [h1, h2] at hba
        · simp [h1, h2] at hab hba
          have hn : x.toNat = y.toNat := by omega
          have hx : x = y := Char.ext (UInt32.ext hn)
          rw [hx, ih hab hba]

theorem pyStrLe_total (a b : String) : pyStrLe a b = true ∨ pyStrLe b a = true := by
  simp only [pyStrLe, pyStrLt, Bool.not_eq_true']
  cases h : strLtChars b.data a.data with
  | false => exact Or.inl rfl
  | true => exact Or.inr (strLtChars_asymm h)

theorem pyStrLe_trans {a b c : String} (hab : pyStrLe a b = true)
    (hbc : pyStrLe b c = true) : pyStrLe a c = true := by
  simp only [pyStrLe, pyStrLt, Bool.not_eq_true'] at hab hbc ⊢
  cases hca : strLtChars c.data a.data with
  | false => rfl
  | true =>
    cases hbc2 : strLtChars b.data c.data with
    | true =>
      have : strLtChars b.data a.data = true := strLtChars_trans hbc2 hca
      rw [this] at hab
      exact absurd hab (by simp)
    | false =>
      have hbeq : b.data = c.data := strLtChars_connex hbc2 hbc
      have : strLtChars b.data a.data = true := by rw [hbeq]; exact hca
      rw [this] at hab
      exact absurd hab (by simp)

theorem strLtChars_irrefl (a : List Char) : strLtChars a a = false := by
  induction a with
  | nil => rfl
  | cons x xs ih => simp [strLtChars, ih]

theorem pyStrLt_connex {a b : String} (hab : pyStrLt a b = false)
    (hba : pyStrLt b a = false) : a = b :=
  String.ext (strLtChars_connex hab hba)

theorem pyStrLt_irrefl (a : String) : pyStrLt a a = false := strLtChars_irrefl a.data

theorem pyPairLt_asymm {a b : String × String} (h : pyPairLt a b = true) :
    pyPairLt b a = false := by
  simp only [pyPairLt, Bool.or_eq_true, Bool.and_eq_true, decide_eq_true_eq] at h
  simp only [pyPairLt, Bool.or_eq_false_iff, Bool.and_eq_false_iff, decide_eq_false_iff_not]
  rcases h with h | ⟨h1, h2⟩
  · refine ⟨strLtChars_asymm h, Or.inl fun he => ?_⟩
    rw [he] at h
    rw [pyStrLt_irrefl a.1] at h
    exact absurd h (by simp)
  · rw [h1]
    exact ⟨pyStrLt_irrefl b.1, Or.inr (strLtChars_asymm h2)⟩

theorem pyPairLt_trans {a b c : String × String} (hab : pyPairLt a b = true)
    (hbc : pyPairLt b c = true) : pyPairLt a c = true := by
  simp only [pyPairLt, Bool.or_eq_true, Bool.and_eq_true, decide_eq_true_eq] at hab hbc ⊢
  rcases hab with hab | ⟨hab1, hab2⟩
  · rcases hbc with hbc | ⟨hbc1, hbc2⟩
    · exact Or.inl (strLtChars_trans hab hbc)
    · rw [hbc1] at hab
      exact Or.inl hab
  · rcases hbc with hbc | ⟨hbc1, hbc2⟩
    · rw [hab1]
      exact Or.inl hbc
    · exact Or.inr ⟨hab1.trans hbc1, strLtChars_trans hab2 hbc2⟩

theorem pyPairLt_connex {a b : String × String} (hab : pyPairLt a b = false)
    (hba : pyPairLt b a = false) : a = b := by
  simp only [pyPairLt, Bool.or_eq_false_iff, Bool.and_eq_false_iff,
    decide_eq_false_iff_not] at hab hba
  rcases hab with ⟨hab1, hab2⟩
  rcases hba with ⟨hba1, hba2⟩
  have h1 : a.1 = b.1 := pyStrLt_connex hab1 hba1
  rcases hab2 with hne | hab2
  · exact absurd h1 hne
  · rcases hba2 with hne | hba2
    · exact absurd h1.symm hne
    · have h2 : a.2 = b.2 := pyStrLt_connex hab2 hba2
      exact Prod.ext h1 h2

theorem pyPairLe_total (a b : String × String) :
    pyPairLe a b = true ∨ pyPairLe b a = true := by
  simp only [pyPairLe, Bool.not_eq_true']
  cases h : pyPairLt b a with
  | false => exact Or.inl rfl
  | true => exact Or.inr (pyPairLt_asymm h)

theorem pyPairLe_trans {a b c : String × String} (hab : pyPairLe a b = true)
    (hbc : pyPairLe b c = true) : pyPairLe a c = true := by
  simp only [pyPairLe, Bool.not_eq_true'] at hab hbc ⊢
  cases hca : pyPairLt c a with
  | false => rfl
  | true =>
    cases hbc2 : pyPairLt b c with
    | true =>
      have : pyPairLt b a = true := pyPairLt_trans hbc2 hca
      rw [this] at hab
      exact absurd hab (by simp)
    | false =>
      have hbeq : b = c := pyPairLt_connex hbc2 hbc
      have : pyPairLt b a = true := by rw [hbeq]; exact hca
      rw [this] at hab
      exact absurd hab (by simp)

theorem pyPairLe_fst {a b : String × String} (h : pyPairOrder a b) :
    pyStrLe a.1 b.1 = true := by
  have h0 : pyPairLt b a = false := by
    have h1 : (!(pyPairLt b a)) = true := h
    simpa using h1
  simp only [pyPairLt, Bool.or_eq_false_iff] at h0
  simp only [pyStrLe, pyStrLt, Bool.not_eq_true']
  exact h0.1

/-! ### Claim C5: disk processing order -/

/-- C5, counterexample: `Domain._init_disks` sorts the alias strings with
Python's `sorted()`, which is lexicographic, not alias-numeric: for the aliases
disk0, disk2, disk10 the processing order is disk0, disk10, disk2, whose
numeric indices 0, 10, 2 are not ascending. -/
theorem initDisksOrder_example_not_numeric :
    initDisksOrder ["disk0", "disk2", "disk10"] = ["disk0", "disk10", "disk2"] ∧
    List.map diskIndexVal (initDisksOrder ["disk0", "disk2", "disk10"]) = [0, 10, 2] ∧
    ¬ List.Sorted (· ≤ ·)
        (List.map diskIndexVal (initDisksOrder ["disk0", "disk2", "disk10"])) := by
  refine ⟨by decide, by decide, by decide⟩

/-- C5, amended: disk specs are processed in ascending lexicographic
(code-point) order of the alias string, a permutation of the given aliases; for
the aliases disk0, disk2, disk10 the preparation order is disk0, disk10, disk2. -/
theorem initDisksOrder_sorted_lex (aliases : List String) :
    (initDisksOrder aliases).Perm aliases ∧
    List.Sorted pyStrOrder (initDisksOrder aliases) ∧
    initDisksOrder ["disk0", "disk2", "disk10"] = ["disk0", "disk10", "disk2"] := by
  refine ⟨List.perm_insertionSort pyStrOrder aliases, ?_, by decide⟩
  exact @List.sorted_insertionSort String pyStrOrder _ ⟨pyStrLe_total⟩
    ⟨fun _ _ _ => pyStrLe_trans⟩ aliases

/-! ### Claim C9: command runner policy -/

/-- C9: with output capture enabled, `_runcmd` returns the combined
stdout+stderr text and raises on any non-zero exit whatever `failhard` says;
with capture disabled it discards output and raises only when `failhard` is
set, otherwise handing the exit code back to the caller. -/
theorem runcmd_policy (cmds : List String) (failhard : Bool) (res : CmdResult) :
    (runcmd cmds true failhard res =
      if res.exitCode = 0 then .ok (.captured res.combined)
      else .error (.calledProcessError res.exitCode)) ∧
    (runcmd cmds false failhard res =
      if res.exitCode ≠ 0 ∧ failhard = true then .error (.commandFailed cmds)
      else .ok (.exitCode res.exitCode)) := by
  refine ⟨?_, ?_⟩
  · unfold runcmd
    split_ifs <;> simp_all
  · unfold runcmd
    split_ifs <;> simp_all

/-! ### Claim C4: command environments -/

/-- C4: evidence for the environment-handling slip in
`ArchlinuxProvisioner.run`.  With a proxy configured and no caller env, the
method computes into `run_env` exactly the environment the spec describes
(ambient copy plus http_proxy/ftp_proxy) but never forwards it to `_runcmd`,
so the child process sees the plain ambient environment with no proxy
variables.  The base-class `LinuxProvisioner.run` used by the Ubuntu
provisioner does forward that same environment, and
`UbuntuProvisioner.runchroot` does install the fixed PATH. -/
theorem archRun_env_dropped :
    runComputedEnv [("PATH", "/usr/bin")] (some "proxy.example.com:3128") none =
      claimedProxyEnv [("PATH", "/usr/bin")] "proxy.example.com:3128" ∧
    archRunEffectiveEnv [("PATH", "/usr/bin")] (some "proxy.example.com:3128") none =
      [("PATH", "/usr/bin")] ∧
    envGet (archRunEffectiveEnv [("PATH", "/usr/bin")] (some "proxy.example.com:3128") none)
      "http_proxy" = none ∧
    envGet (claimedProxyEnv [("PATH", "/usr/bin")] "proxy.example.com:3128")
      "http_proxy" = some "http://proxy.example.com:3128" ∧
    linuxRunPassedEnv [("PATH", "/usr/bin")] (some "proxy.example.com:3128") none =
      some (claimedProxyEnv [("PATH", "/usr/bin")] "proxy.example.com:3128") ∧
    envGet (ubuntuRunchrootEnv [("PATH", "/usr/bin")] none) "PATH" =
      some chrootPathValue := by
  refine ⟨by decide, by decide, by decide, by decide, by decide, by decide⟩

/-! ### Claim C1: cleanup at most on the success path of main -/

theorem runStages_raised_any (fails : Stage → Bool) (l : List Stage) :
    (runStages fails l).2.isSome = l.any fails := by
  induction l with
  | nil => simp [runStages]
  | cons s rest ih =>
    by_cases h : fails s <;> simp [runStages, h, ih]

/-- C1, counterexample: when the install stage raises, `main` propagates the
failure without ever calling `provisioner.cleanup()` — the cleanup count is 0,
not the claimed exactly-once. -/
theorem mainProvision_install_failure_no_cleanup :
    (mainProvision (fun s => decide (s = Stage.install))).raised = some Stage.install ∧
    (mainProvision (fun s => decide (s = Stage.install))).cleanupCalls = 0 := by
  refine ⟨by decide, by decide⟩

/-- C1, amended: the provisioner constructor runs the stages and `main` calls
`cleanup()` only after the constructor returns, so cleanup is invoked exactly
once when every stage succeeds and zero times when any stage raises; the first
failure propagates to the caller with no cleanup performed. -/
theorem mainProvision_cleanup_only_on_success (fails : Stage → Bool) :
    ((mainProvision fails).cleanupCalls = if pipelineStages.any fails then 0 else 1) ∧
    ((mainProvision fails).raised.isSome = pipelineStages.any fails) := by
  have h : (provisionerInit fails).2.isSome = pipelineStages.any fails :=
    runStages_raised_any fails pipelineStages
  unfold mainProvision
  rcases hp : provisionerInit fails with ⟨run, opt⟩
  rw [hp] at h
  cases opt with
  | none =>
    have hany : pipelineStages.any fails = false := by simpa using h.symm
    simp [hany]
  | some s =>
    have hany : pipelineStages.any fails = true := by simpa using h.symm
    simp [hany]

/-! ### Claim C2: release-all unwinding -/

/-- C2, counterexample: with two recorded actions where the most recently
recorded one (the umount) exits non-zero, `cleanup` raises on it — the run
defaults leave failhard true — and the earlier-acquired detach action is never
invoked. -/
theorem cleanup_aborts_on_failure_example :
    cleanup
        (fun c => if c = ["/usr/bin/umount", "/provision/srv"] then 1 else 0)
        [["/usr/bin/qemu-nbd", "-d", "/dev/nbd0"], ["/usr/bin/umount", "/provision/srv"]] =
      ([["/usr/bin/umount", "/provision/srv"]], some ["/usr/bin/umount", "/provision/srv"]) ∧
    ["/usr/bin/qemu-nbd", "-d", "/dev/nbd0"] ∉
      (cleanup
          (fun c => if c = ["/usr/bin/umount", "/provision/srv"] then 1 else 0)
          [["/usr/bin/qemu-nbd", "-d", "/dev/nbd0"],
            ["/usr/bin/umount", "/provision/srv"]]).1 := by
  refine ⟨by decide, by decide⟩

/-- C2, amended: `cleanup` walks the ledger in exact reverse insertion order
but invokes each action through `run` with its defaults, failhard included:
actions are invoked as long as each exits zero; the first non-zero exit raises
and leaves every earlier-acquired action uninvoked; only when all actions exit
zero is the whole ledger released in LIFO order. -/
theorem cleanup_characterization (exitOf : Cmd → Int) (ledger : List Cmd) :
    cleanup exitOf ledger =
      (match ledger.reverse.drop
          ((ledger.reverse.takeWhile (fun x => exitOf x == 0)).length) with
        | [] => (ledger.reverse, none)
        | c :: _ =>
            (ledger.reverse.takeWhile (fun x => exitOf x == 0) ++ [c], some c)) := by
  unfold cleanup
  generalize ledger.reverse = l
  induction l with
  | nil => rfl
  | cons c rest ih =>
    by_cases h : exitOf c = 0
    · have hp : (exitOf c == 0) = true := by simpa using h
      cases hdrop : rest.drop ((rest.takeWhile (fun x => exitOf x == 0)).length) with
      | nil => simp [cleanupGo, h, hp, List.takeWhile_cons, hdrop, ih]
      | cons d ds => simp [cleanupGo, h, hp, List.takeWhile_cons, hdrop, ih]
    · have hp : (exitOf c == 0) = false := by simpa using h
      simp [cleanupGo, h, hp, List.takeWhile_cons]

/-! ### Claim C3: unsupported filesystem types -/

/-- C3, counterexample: preparing a disk whose fstype is btrfs does raise the
unsupported-fstype error, but only after partitioning commands were issued for
the disk: the trace already contains an `sgdisk -n` partition creation. -/
theorem prepareDisk_btrfs_partitions_before_error :
    (prepareDiskTrace (fun _ => "")
        { number := "1", fstype := "btrfs", mountpoint := "/data",
          path := "/vm/disk1.qcow2" }).2 =
      some (.unsupportedFstype "btrfs") ∧
    (prepareDiskTrace (fun _ => "")
        { number := "1", fstype := "btrfs", mountpoint := "/data",
          path := "/vm/disk1.qcow2" }).1.filter isPartitionCreate =
      [["/usr/bin/sgdisk", "-n", "1", "/dev/nbd1"]] := by
  refine ⟨by decide, by decide⟩

/-- C3, amended: preparing a disk with a declared fstype other than ext4/swap
fails with the unsupported-filesystem error, but only after the partitioning
commands for that disk have already been issued: the trace of the failing
preparation is exactly the image attach, then the partition-table zap
(`sgdisk -o`), then the partition creation(s), in that order, and then the
error is raised — so the zap and the creations all precede the error, and no
formatting, mounting or swap-activation command is ever issued for the disk. -/
theorem prepareDisk_unsupported_fstype_after_partitioning (out : Cmd → String)
    (disk : DiskSpec) (h1 : disk.fstype ≠ "ext4") (h2 : disk.fstype ≠ "swap") :
    prepareDiskTrace out disk =
      ([["/usr/bin/qemu-nbd", "-n", "-c", "/dev/nbd" ++ disk.number, disk.path],
          ["/usr/bin/sgdisk", "-o", "/dev/nbd" ++ disk.number]] ++
        (if disk.number = "0" then
          [["/usr/bin/sgdisk", "-n", "1:2048:4095", "-t", "1:ef02",
              "/dev/nbd" ++ disk.number],
            ["/usr/bin/sgdisk", "-E", "/dev/nbd" ++ disk.number],
            ["/usr/bin/sgdisk", "-n",
              "2:4096:" ++
                (out ["/usr/bin/sgdisk", "-E", "/dev/nbd" ++ disk.number]).trim,
              "/dev/nbd" ++ disk.number]]
        else [["/usr/bin/sgdisk", "-n", "1", "/dev/nbd" ++ disk.number]]),
        some (.unsupportedFstype disk.fstype)) ∧
    (∀ c ∈ (prepareDiskTrace out disk).1,
      c.head? ≠ some "/usr/bin/mkfs.ext4" ∧ c.head? ≠ some "/usr/bin/mkswap" ∧
      c.head? ≠ some "/usr/bin/mount" ∧ c.head? ≠ some "/usr/bin/swapon" ∧
      c.head? ≠ some "/usr/bin/tune2fs" ∧ c.head? ≠ some "/usr/bin/blkid") := by
  constructor
  · unfold prepareDiskTrace
    by_cases hn : disk.number = "0" <;> simp [h1, h2, hn]
  · intro c hc
    unfold prepareDiskTrace at hc
    by_cases hn : disk.number = "0"
    · simp [h1, h2, hn] at hc
      rcases hc with hc | hc | hc | hc | hc <;> subst hc <;> simp
    · simp [h1, h2, hn] at hc
      rcases hc with hc | hc | hc <;> subst hc <;> simp

/-- C3, witness for the amended theorem at a concrete btrfs non-boot disk: the
error is raised, the trace is exactly attach, zap, then the single partition
creation, and no formatting or mounting command appears in it. -/
theorem prepareDisk_unsupported_fstype_witness :
    ("btrfs" : String) ≠ "ext4" ∧ ("btrfs" : String) ≠ "swap" ∧
    prepareDiskTrace (fun _ => "")
        { number := "2", fstype := "btrfs", mountpoint := "/", path := "img" } =
      ([["/usr/bin/qemu-nbd", "-n", "-c", "/dev/nbd2", "img"],
          ["/usr/bin/sgdisk", "-o", "/dev/nbd2"],
          ["/usr/bin/sgdisk", "-n", "1", "/dev/nbd2"]],
        some (.unsupportedFstype "btrfs")) ∧
    ∀ c ∈ (prepareDiskTrace (fun _ => "")
        { number := "2", fstype := "btrfs", mountpoint := "/", path := "img" }).1,
      c.head? ≠ some "/usr/bin/mkfs.ext4" ∧ c.head? ≠ some "/usr/bin/mount" := by
  have h := prepareDisk_unsupported_fstype_after_partitioning (fun _ => "")
    { number := "2", fstype := "btrfs", mountpoint := "/", path := "img" }
    (by decide) (by decide)
  refine ⟨by decide, by decide, ?_, ?_⟩
  · rw [h.1]
    decide
  · intro c hc
    exact ⟨(h.2 c hc).1, (h.2 c hc).2.2.1⟩

/-! ### Claim C6: partition layout per disk -/

/-- C6: for every disk, the partition-creation commands issued by
`_prepare_disks` are exactly two on the disk with index "0" — partition 1 over
sectors 2048 to 4095 with the BIOS-boot type code ef02, and partition 2 from
sector 4096 to the end sector the device reports through `sgdisk -E` — and
exactly one whole-device partition (`sgdisk -n 1` with no sector bounds) on
every other disk. -/
theorem prepareDisk_partition_layout (out : Cmd → String) (disk : DiskSpec) :
    (prepareDiskTrace out disk).1.filter isPartitionCreate =
      if disk.number = "0" then
        [["/usr/bin/sgdisk", "-n", "1:2048:4095", "-t", "1:ef02",
            "/dev/nbd" ++ disk.number],
          ["/usr/bin/sgdisk", "-n",
            "2:4096:" ++ (out ["/usr/bin/sgdisk", "-E", "/dev/nbd" ++ disk.number]).trim,
            "/dev/nbd" ++ disk.number]]
      else [["/usr/bin/sgdisk", "-n", "1", "/dev/nbd" ++ disk.number]] := by
  unfold prepareDiskTrace
  by_cases hn : disk.number = "0" <;>
    by_cases he : disk.fstype = "ext4" <;>
      by_cases hs : disk.fstype = "swap" <;>
        by_cases hm : disk.mountpoint = "/" <;>
          simp [hn, he, hs, hm, isPartitionCreate]

/-! ### Claims C7 and C8: fstab generation -/

theorem foldl_fstabStep (swapAll ext4All : List String) (keys : List String)
    (acc : List String × List String) (h : keys.Nodup) :
    keys.foldl (fstabStep swapAll ext4All) acc =
      (acc.1 ++ (if "swap" ∈ keys then swapAll else []),
        acc.2 ++ (if "ext4" ∈ keys then ext4All else [])) := by
  induction keys generalizing acc with
  | nil => simp
  | cons k rest ih =>
    rcases List.nodup_cons.mp h with ⟨hk, hrest⟩
    rw [List.foldl_cons, ih _ hrest]
    by_cases h1 : k = "swap"
    · subst h1
      have h2 : "swap" ∉ rest := hk
      simp [fstabStep, h2, List.mem_cons]
    · by_cases h2 : k = "ext4"
      · subst h2
        have h3 : "ext4" ∉ rest := hk
        simp [fstabStep, h1, h3, List.mem_cons]
      · have hs1 : ¬("swap" = k) := fun hh => h1 hh.symm
        have hs2 : ¬("ext4" = k) := fun hh => h2 hh.symm
        simp [fstabStep, h1, h2, hs1, hs2, List.mem_cons]

theorem ext4LinesFrom_zipWith (l : List (String × String)) (n : Nat) :
    ext4LinesFrom l n =
      List.zipWith (fun p k => ext4Line p.2 p.1 k) l (List.range' (n + 1) l.length) := by
  induction l generalizing n with
  | nil => simp [ext4LinesFrom]
  | cons p rest ih =>
    cases p with
    | mk mp uuid =>
      simp only [ext4LinesFrom, List.length_cons, List.range'_succ, List.zipWith_cons_cons]
      exact congrArg _ (ih (n + 1))

theorem pySortedPairs_mountpoints_ascending (l : List (String × String)) :
    List.Pairwise (fun p q => pyStrLe p.1 q.1 = true) (pySortedPairs l) := by
  have hs := @List.sorted_insertionSort (String × String) pyPairOrder _
    ⟨pyPairLe_total⟩ ⟨fun _ _ _ => pyPairLe_trans⟩ l
  exact hs.imp pyPairLe_fst

/-- C7: for every UuidMap accumulated by disk preparation (its top-level keys
are distinct), the generated fstab lines are the ext4 block first — the ext4
items in ascending (Python-sorted) mountpoint order, with fsck pass numbers
1, 2, 3, ... assigned by position via `range' 1` — followed by the swap block,
whose lines (`swapLine`) all end in fsck pass 0. -/
theorem fstab_order (m : UuidMap) (h : m.keys.Nodup) :
    fstabLines m =
      (if "ext4" ∈ m.keys then
          List.zipWith (fun p k => ext4Line p.2 p.1 k) (pySortedPairs m.ext4)
            (List.range' 1 (pySortedPairs m.ext4).length)
        else []) ++
      (if "swap" ∈ m.keys then m.swap.map swapLine else []) ∧
    List.Pairwise (fun p q => pyStrLe p.1 q.1 = true) (pySortedPairs m.ext4) := by
  constructor
  · unfold fstabLines
    rw [foldl_fstabStep _ _ _ _ h]
    simp [ext4LinesFrom_zipWith]
  · exact pySortedPairs_mountpoints_ascending m.ext4

/-- C7, witness: the fstab lines of a concrete two-mountpoint, one-swap map.
The root entry comes first with fsck pass 1, the /srv entry second with pass 2,
and the swap entry last with pass 0. -/
theorem fstab_order_witness :
    fstabLines ⟨["swap", "ext4"], [("/srv", "u2"), ("/", "u1")], ["u3"]⟩ =
      ["UUID=u1 / ext4 rw,relatime,data=ordered 0 1",
        "UUID=u2 /srv ext4 rw,relatime,data=ordered 0 2",
        "UUID=u3 none swap defaults 0 0"] := by
  have h := fstab_order ⟨["swap", "ext4"], [("/srv", "u2"), ("/", "u1")], ["u3"]⟩
    (by decide)
  rw [h.1]
  decide

/-- C8: fstab-line generation is a function of the UuidMap content alone: two
maps holding the same ext4 bindings and swap uuids produce byte-identical
lines even if their top-level dict keys were inserted in different orders, and
in particular re-running the generation on one fixed map reproduces the same
output. -/
theorem fstabLines_content_deterministic (m₁ m₂ : UuidMap)
    (h1 : m₁.keys.Nodup) (h2 : m₂.keys.Nodup)
    (hk : ∀ k, k ∈ m₁.keys ↔ k ∈ m₂.keys)
    (he : m₁.ext4 = m₂.ext4) (hs : m₁.swap = m₂.swap) :
    fstabLines m₁ = fstabLines m₂ := by
  unfold fstabLines
  rw [foldl_fstabStep _ _ _ _ h1, foldl_fstabStep _ _ _ _ h2, he, hs]
  simp only [hk "swap", hk "ext4"]

/-- C8, witness: the same content behind the two possible key insertion orders
yields identical fstab lines. -/
theorem fstabLines_content_deterministic_witness :
    fstabLines ⟨["ext4", "swap"], [("/", "u1")], ["u2"]⟩ =
      fstabLines ⟨["swap", "ext4"], [("/", "u1")], ["u2"]⟩ := by
  exact fstabLines_content_deterministic _ _ (by decide) (by decide)
    (fun k => by simp [List.mem_cons]; tauto) rfl rfl

/-! ### Claim C10: mount paths versus target file paths -/

/-- C10: the host-side mount path `_prepare_disks` uses for an ext4 disk is the
literal '/provision/' plus the slash-stripped mountpoint, whatever the
provisioner's `target` constructor parameter is; every guest file write goes to
`target ++ filename`; and the file-write path for the corresponding in-guest
location equals the mount path precisely when the target is "/provision". -/
theorem prepareMountPath_independent_of_target :
    (∀ t₁ t₂ mp, prepareMountPath t₁ mp = prepareMountPath t₂ mp) ∧
    (∀ t mp, prepareMountPath t mp = "/provision/" ++ lstripSlashes mp) ∧
    (∀ t mp, writetargetfilePath t ("/" ++ lstripSlashes mp) = prepareMountPath t mp ↔
        t = "/provision") := by
  refine ⟨fun t₁ t₂ mp => rfl, fun t mp => rfl, fun t mp => ?_⟩
  constructor
  · intro h
    have hd := congrArg String.data h
    simp only [writetargetfilePath, prepareMountPath, String.data_append] at hd
    have hsplit : (['/', 'p', 'r', 'o', 'v', 'i', 's', 'i', 'o', 'n', '/'] : List Char) =
        ['/', 'p', 'r', 'o', 'v', 'i', 's', 'i', 'o', 'n'] ++ ['/'] := by decide
    rw [hsplit, List.append_assoc] at hd
    have ht : t.data = ['/', 'p', 'r', 'o', 'v', 'i', 's', 'i', 'o', 'n'] :=
      List.append_cancel_right hd
    apply String.ext
    rw [ht]
  · intro h
    subst h
    apply String.ext
    simp only [writetargetfilePath, prepareMountPath, String.data_append]
    have hjoin : (['/', 'p', 'r', 'o', 'v', 'i', 's', 'i', 'o', 'n'] ++ ['/'] : List Char) =
        ['/', 'p', 'r', 'o', 'v', 'i', 's', 'i', 'o', 'n', '/'] := by decide
    rw [← List.append_assoc, hjoin]

end Archvyrt
